import Mathlib

/-!
# ChurnRadar: verification of the scoring and cohort pipeline

A shallow embedding of the analytics engine of the ChurnRadar repository
(`run_churn_radar.py` and `app/churn_core/logic.py`).  Pandas series are
modelled as `List ℚ`, dataframes as lists of row structures, float
arithmetic as exact rational arithmetic, and the LLM endpoint as an
oracle argument (`Option` result: `none` models the call raising).
-/

namespace ChurnRadar

/-! ## Series helpers

`listMin`/`listMax` model `pandas.Series.min`/`.max` on a non-empty
series (the empty case is never used by callers; we default to 0). -/

def listMin : List ℚ → ℚ
  | [] => 0
  | x :: xs => xs.foldl min x

def listMax : List ℚ → ℚ
  | [] => 0
  | x :: xs => xs.foldl max x

theorem foldl_min_le_init (xs : List ℚ) (x : ℚ) : xs.foldl min x ≤ x := by
  induction xs generalizing x with
  | nil => exact le_refl _
  | cons a as ih => exact le_trans (ih _) (min_le_left _ _)

theorem foldl_min_le_of_mem {y : ℚ} {xs : List ℚ} (hy : y ∈ xs) (x : ℚ) :
    xs.foldl min x ≤ y := by
  induction xs generalizing x with
  | nil => cases hy
  | cons a as ih =>
    rcases List.mem_cons.mp hy with rfl | hy'
    · exact le_trans (foldl_min_le_init as (min x y)) (min_le_right _ _)
    · exact ih hy' _

theorem init_le_foldl_max (xs : List ℚ) (x : ℚ) : x ≤ xs.foldl max x := by
  induction xs generalizing x with
  | nil => exact le_refl _
  | cons a as ih => exact le_trans (le_max_left _ _) (ih _)

theorem le_foldl_max_of_mem {y : ℚ} {xs : List ℚ} (hy : y ∈ xs) (x : ℚ) :
    y ≤ xs.foldl max x := by
  induction xs generalizing x with
  | nil => cases hy
  | cons a as ih =>
    rcases List.mem_cons.mp hy with rfl | hy'
    · exact le_trans (le_max_right x y) (init_le_foldl_max as (max x y))
    · exact ih hy' _

theorem listMin_le_of_mem {y : ℚ} {l : List ℚ} (hy : y ∈ l) : listMin l ≤ y := by
  cases l with
  | nil => cases hy
  | cons x xs =>
    rcases List.mem_cons.mp hy with rfl | hy'
    · exact foldl_min_le_init _ _
    · exact foldl_min_le_of_mem hy' _

theorem le_listMax_of_mem {y : ℚ} {l : List ℚ} (hy : y ∈ l) : y ≤ listMax l := by
  cases l with
  | nil => cases hy
  | cons x xs =>
    rcases List.mem_cons.mp hy with rfl | hy'
    · exact init_le_foldl_max _ _
    · exact le_foldl_max_of_mem hy' _

/-! ## `min_max_scale` (run_churn_radar.py, lines 230-238)

```python
def min_max_scale(s):
    try:
        s = (s - s.min()) / (s.max() - s.min())
        return s.fillna(0) if hasattr(s,'fillna') else s
    ...
```

On a pandas series each entry becomes `(x - min) / (max - min)`; when
`max == min` every numerator is 0, `0/0` is NaN and `fillna(0)` turns it
into 0.  The rational embedding writes that degenerate case explicitly. -/

def min_max_scale (l : List ℚ) : List ℚ :=
  let lo := listMin l
  let hi := listMax l
  l.map (fun x => if hi = lo then 0 else (x - lo) / (hi - lo))

/-! ## `mark_status` (run_churn_radar.py, lines 365-373)

```python
x = df['DaySinceLastOrder'] if 'DaySinceLastOrder' in df.columns else pd.Series([0]*len(df))
st = pd.Series(['Active']*len(df))
st[(x >= 7) & (x < 30)] = 'AtRisk'
st[x >= 30] = 'Churned'
```

The vectorised overwrites are embedded per-row in the same order:
start at `Active`, overwrite with `AtRisk`, then with `Churned`. -/

inductive Status where
  | Active
  | AtRisk
  | Churned
deriving DecidableEq, Repr

def mark_status (x : ℚ) : Status :=
  let st := Status.Active
  let st := if 7 ≤ x ∧ x < 30 then Status.AtRisk else st
  let st := if 30 ≤ x then Status.Churned else st
  st

/-- `mark_status` applied to a whole frame of `n` rows: when the
`DaySinceLastOrder` column is absent the code substitutes a zero series. -/
def mark_status_df (col : Option (List ℚ)) (n : ℕ) : List Status :=
  (col.getD (List.replicate n 0)).map mark_status

/-! ## Theorems for C8 and C2 -/

/-- C8: `min_max_scale` is total on every numeric series: when
`max(s) = min(s)` (constant or single-element series included) every
output entry is 0; otherwise every entry equals
`(x - min(s)) / (max(s) - min(s))` and lies in `[0, 1]`.  In the
embedding division never raises; the degenerate case returns 0 exactly
as pandas' `fillna(0)` does. -/
theorem min_max_scale_total (l : List ℚ) :
    (min_max_scale l).length = l.length ∧
    (listMax l = listMin l → ∀ y ∈ min_max_scale l, y = 0) ∧
    (listMax l ≠ listMin l →
      min_max_scale l = l.map (fun x => (x - listMin l) / (listMax l - listMin l))) ∧
    (∀ y ∈ min_max_scale l, 0 ≤ y ∧ y ≤ 1) := by
  refine ⟨List.length_map _ _, ?_, ?_, ?_⟩
  · intro hconst y hy
    rcases List.mem_map.mp hy with ⟨x, _, rfl⟩
    simp [hconst]
  · intro hne
    unfold min_max_scale
    refine List.map_congr_left ?_
    intro x _
    simp [hne]
  · intro y hy
    rcases List.mem_map.mp hy with ⟨x, hx, rfl⟩
    by_cases hconst : listMax l = listMin l
    · simp [hconst]
    · have hlo : listMin l ≤ x := listMin_le_of_mem hx
      have hhi : x ≤ listMax l := le_listMax_of_mem hx
      have hlt : listMin l < listMax l :=
        lt_of_le_of_ne (le_trans hlo hhi) (fun h => hconst h.symm)
      have hden : (0 : ℚ) < listMax l - listMin l := by linarith
      constructor
      · simp only [if_neg hconst]
        exact div_nonneg (by linarith) (le_of_lt hden)
      · simp only [if_neg hconst]
        rw [div_le_one hden]
        linarith

/-- Witness for C8 at the concrete series `[1, 3]`. -/
theorem min_max_scale_total_witness :
    (0 : ℚ) ≤ 1 ∧ (1 : ℚ) ≤ 1 := by
  have h : min_max_scale [(1 : ℚ), 3] = [0, 1] := by
    norm_num [min_max_scale, listMin, listMax]
  exact (min_max_scale_total [1, 3]).2.2.2 1 (by rw [h]; simp)

/-- C2: `mark_status` classifies every customer into exactly one of the
three buckets, determined solely by `DaySinceLastOrder`: `Active` iff
`x < 7`, `AtRisk` iff `7 ≤ x < 30`, `Churned` iff `x ≥ 30`; the buckets
are mutually exclusive and exhaustive, and an absent column is treated
as a zero series (every row `Active`). -/
theorem mark_status_eq (x : ℚ) :
    mark_status x =
      if 30 ≤ x then Status.Churned
      else if 7 ≤ x ∧ x < 30 then Status.AtRisk
      else Status.Active := rfl

theorem mark_status_buckets :
    (∀ x : ℚ,
      (mark_status x = Status.Active ↔ x < 7) ∧
      (mark_status x = Status.AtRisk ↔ 7 ≤ x ∧ x < 30) ∧
      (mark_status x = Status.Churned ↔ 30 ≤ x)) ∧
    (∀ n : ℕ, mark_status_df none n = List.replicate n Status.Active) := by
  constructor
  · intro x
    by_cases h30 : 30 ≤ x
    · rw [mark_status_eq, if_pos h30]
      exact ⟨⟨fun h => Status.noConfusion h, fun h => absurd h (by linarith)⟩,
             ⟨fun h => Status.noConfusion h, fun h => absurd h.2 (by linarith)⟩,
             ⟨fun _ => h30, fun _ => rfl⟩⟩
    · by_cases h7 : 7 ≤ x
      · have hx30 : x < 30 := lt_of_not_le h30
        rw [mark_status_eq, if_neg h30, if_pos ⟨h7, hx30⟩]
        exact ⟨⟨fun h => Status.noConfusion h, fun h => absurd h (by linarith)⟩,
               ⟨fun _ => ⟨h7, hx30⟩, fun _ => rfl⟩,
               ⟨fun h => Status.noConfusion h, fun h => absurd h h30⟩⟩
      · have hx7 : x < 7 := lt_of_not_le h7
        rw [mark_status_eq, if_neg h30, if_neg (fun h => h7 h.1)]
        exact ⟨⟨fun _ => hx7, fun _ => rfl⟩,
               ⟨fun h => Status.noConfusion h, fun h => absurd h.1 h7⟩,
               ⟨fun h => Status.noConfusion h, fun h => absurd h h30⟩⟩
  · intro n
    show (List.replicate n (0 : ℚ)).map mark_status = _
    rw [List.map_replicate]
    norm_num [mark_status_eq]

/-! ## `compute_features` (run_churn_radar.py, lines 241-295)

A raw dataset row after the numeric-coercion / median-fill step, holding
the numeric columns that feed the derived features.  The derived columns
(lines 260-262) and the weighted composite `ResurrectionScore`
(lines 283-290) are embedded below. -/

structure RawRow where
  tenure : ℚ
  hourSpendOnApp : ℚ
  numberOfDeviceRegistered : ℚ
  satisfactionScore : ℚ
  complain : ℚ
  orderCount : ℚ
  daySinceLastOrder : ℚ
  couponUsed : ℚ
  cashbackAmount : ℚ
  orderAmountHikeFromlastYear : ℚ
deriving DecidableEq, Repr

/-- `df['MonetaryValue'] = CashbackAmount + CouponUsed + OrderAmountHikeFromlastYear` -/
def MonetaryValue (r : RawRow) : ℚ :=
  r.cashbackAmount + r.couponUsed + r.orderAmountHikeFromlastYear

/-- `df['Engagement'] = HourSpendOnApp + 0.5*NumberOfDeviceRegistered` -/
def EngagementOf (r : RawRow) : ℚ :=
  r.hourSpendOnApp + (1 / 2) * r.numberOfDeviceRegistered

/-- `df['SatisfactionMinusComplain'] = SatisfactionScore - 2*Complain` -/
def SatisfactionMinusComplain (r : RawRow) : ℚ :=
  r.satisfactionScore - 2 * r.complain

/-- pandas `.clip(0, 1)` on a scalar. -/
def clip01 (x : ℚ) : ℚ := max 0 (min 1 x)

/-- The `ResurrectionScore` column produced by `compute_features`: the
weighted composite of the six min-max-scaled signals, clipped to `[0,1]`
(run_churn_radar.py lines 263-268 and 283-290).  Columns are aligned by
row index, as pandas does. -/
def resurrection_score (df : List RawRow) : List ℚ :=
  let orderCount_s := min_max_scale (df.map RawRow.orderCount)
  let monetaryValue_s := min_max_scale (df.map MonetaryValue)
  let tenure_s := min_max_scale (df.map RawRow.tenure)
  let engagement_s := min_max_scale (df.map EngagementOf)
  let recency_s := min_max_scale (df.map RawRow.daySinceLastOrder)
  let satMinusComplain_s := min_max_scale (df.map SatisfactionMinusComplain)
  (List.range df.length).map (fun i =>
    clip01 ((3 / 10) * orderCount_s.getD i 0
      + (1 / 5) * monetaryValue_s.getD i 0
      + (3 / 20) * tenure_s.getD i 0
      + (3 / 20) * engagement_s.getD i 0
      - (3 / 20) * recency_s.getD i 0
      + (1 / 10) * satMinusComplain_s.getD i 0))

theorem clip01_nonneg (x : ℚ) : 0 ≤ clip01 x := le_max_left _ _

theorem clip01_le_one (x : ℚ) : clip01 x ≤ 1 :=
  max_le (by norm_num) (min_le_left _ _)

/-- C1: for every input row of `compute_features`, `ResurrectionScore`
is the weighted composite
`0.30*OrderCount_s + 0.20*MonetaryValue_s + 0.15*Tenure_s +
 0.15*Engagement_s - 0.15*Recency_s + 0.10*SatMinusComplain_s`
of the six min-max-normalized signals, clipped to `[0,1]`; hence every
customer's score lies in `[0,1]`. -/
theorem resurrection_score_spec (df : List RawRow) :
    (resurrection_score df).length = df.length ∧
    (∀ i, i < df.length →
      (resurrection_score df).getD i 0 =
        clip01 ((3 / 10) * (min_max_scale (df.map RawRow.orderCount)).getD i 0
          + (1 / 5) * (min_max_scale (df.map MonetaryValue)).getD i 0
          + (3 / 20) * (min_max_scale (df.map RawRow.tenure)).getD i 0
          + (3 / 20) * (min_max_scale (df.map EngagementOf)).getD i 0
          - (3 / 20) * (min_max_scale (df.map RawRow.daySinceLastOrder)).getD i 0
          + (1 / 10) * (min_max_scale (df.map SatisfactionMinusComplain)).getD i 0)) ∧
    (∀ y ∈ resurrection_score df, 0 ≤ y ∧ y ≤ 1) := by
  refine ⟨?_, ?_, ?_⟩
  · simp [resurrection_score]
  · intro i hi
    unfold resurrection_score
    rw [List.getD_eq_getElem?_getD, List.getElem?_map, List.getElem?_range hi]
    rfl
  · intro y hy
    unfold resurrection_score at hy
    rcases List.mem_map.mp hy with ⟨i, _, rfl⟩
    exact ⟨clip01_nonneg _, clip01_le_one _⟩

/-- Witness for C1 on a concrete one-row frame (all raw columns 1). -/
theorem resurrection_score_spec_witness :
    (0 : ℚ) ≤ 0 ∧ (0 : ℚ) ≤ 1 := by
  have h : resurrection_score [⟨1, 1, 1, 1, 1, 1, 1, 1, 1, 1⟩] = [0] := by
    norm_num [resurrection_score, min_max_scale, listMin, listMax, clip01,
      List.range_succ, MonetaryValue, EngagementOf, SatisfactionMinusComplain]
  exact (resurrection_score_spec [⟨1, 1, 1, 1, 1, 1, 1, 1, 1, 1⟩]).2.2 0 (by rw [h]; simp)

/-! ## `cohort_premium_lapsed` (run_churn_radar.py, lines 386-391)

```python
def cohort_premium_lapsed(d):
    if len(d) == 0:
        return d
    thr = d['Engagement'].quantile(0.70)
    return d.query("Engagement >= @thr and DaySinceLastOrder >= 5 and DaySinceLastOrder <= 20")
```

The cohort functions run on the featured frame, of which they read only
the `Engagement` and `DaySinceLastOrder` columns; a row is modelled by
those two columns.  `quantile(0.70)` is pandas' default linear
interpolation on the sorted values at position `h = 0.7*(n-1)`:
`s[⌊h⌋] + (h-⌊h⌋)*(s[⌊h⌋+1] - s[⌊h⌋])`. -/

structure CRow where
  engagement : ℚ
  daySinceLastOrder : ℚ
deriving DecidableEq, Repr

def insertSorted (x : ℚ) : List ℚ → List ℚ
  | [] => [x]
  | y :: ys => if x ≤ y then x :: y :: ys else y :: insertSorted x ys

/-- Ascending sort of the series values (insertion sort; models the sort
pandas performs internally when computing a quantile). -/
def sortAsc (l : List ℚ) : List ℚ := l.foldr insertSorted []

/-- pandas `Series.quantile(0.70)` with the default linear interpolation.
With `n` values the position is `h = 0.7*(n-1) = (7*(n-1))/10`; writing
`i = ⌊h⌋` and `frac = h - i`, the result is
`s[i] + frac*(s[i+1] - s[i])`. -/
def quantile70 (l : List ℚ) : ℚ :=
  let s := sortAsc l
  let n := s.length
  let pos := 7 * (n - 1)
  let i := pos / 10
  let frac : ℚ := (pos % 10 : ℕ) / 10
  s.getD i 0 + frac * (s.getD (i + 1) 0 - s.getD i 0)

def cohort_premium_lapsed (d : List CRow) : List CRow :=
  if d.length = 0 then d
  else
    let thr := quantile70 (d.map CRow.engagement)
    d.filter (fun r => decide (thr ≤ r.engagement ∧
      5 ≤ r.daySinceLastOrder ∧ r.daySinceLastOrder ≤ 20))

/-- C3: the 'Premium engagement lapsed' cohort contains exactly the
customers whose `Engagement` is at least the 0.70 quantile of
`Engagement` over the input dataframe and whose `DaySinceLastOrder` is
between 5 and 20 inclusive; on an empty dataframe it returns the empty
dataframe. -/
theorem cohort_premium_lapsed_spec :
    cohort_premium_lapsed [] = [] ∧
    ∀ (d : List CRow) (r : CRow),
      r ∈ cohort_premium_lapsed d ↔
        (r ∈ d ∧ quantile70 (d.map CRow.engagement) ≤ r.engagement ∧
         5 ≤ r.daySinceLastOrder ∧ r.daySinceLastOrder ≤ 20) := by
  refine ⟨rfl, ?_⟩
  intro d r
  cases d with
  | nil => simp [cohort_premium_lapsed]
  | cons a as =>
    simp [cohort_premium_lapsed, List.mem_filter]

/-- Witness for C3: a concrete two-row frame where the high-engagement,
recently-lapsed row is selected. -/
theorem cohort_premium_lapsed_spec_witness :
    (⟨10, 10⟩ : CRow) ∈ cohort_premium_lapsed [⟨10, 10⟩, ⟨2, 10⟩] := by
  refine (cohort_premium_lapsed_spec.2 _ _).mpr ⟨by simp, ?_, by norm_num, by norm_num⟩
  have h : quantile70 (([⟨10, 10⟩, ⟨2, 10⟩] : List CRow).map CRow.engagement) = 38 / 5 := by
    norm_num [quantile70, sortAsc, insertSorted]
  rw [h]
  norm_num

/-! ## String helpers

`charsContain` models Python's substring test `needle in hay`;
`pyWords` models `str.split()` (split on whitespace, dropping empty
pieces). -/

def charsStartWith : List Char → List Char → Bool
  | _, [] => true
  | [], _ :: _ => false
  | a :: as, b :: bs => a == b && charsStartWith as bs

def charsContain : List Char → List Char → Bool
  | [], needle => needle.isEmpty
  | a :: rest, needle => charsStartWith (a :: rest) needle || charsContain rest needle

def strContainsStr (hay needle : String) : Bool :=
  charsContain hay.toList needle.toList

def pyWords (s : String) : List String :=
  (s.split Char.isWhitespace).filter (fun w => w ≠ "")

/-! ## `brand_safety` (run_churn_radar.py, lines 513-523)

```python
BAD_PHRASES = {"guaranteed", "last chance", "only today", "free for everyone", "limited time"}

def brand_safety(text: str) -> bool:
    t = text.lower()
    if any(p in t for p in BAD_PHRASES):
        return False
    if len(text) > 1200:
        return False
    return True
``` -/

def BAD_PHRASES : List String :=
  ["guaranteed", "last chance", "only today", "free for everyone", "limited time"]

def brand_safety (text : String) : Bool :=
  let t := text.toLower
  if BAD_PHRASES.any (fun p => strContainsStr t p) then false
  else if 1200 < text.length then false
  else true

/-- C9: `brand_safety text` is `true` iff the lowercased text contains
none of the five banned phrases and `len(text) ≤ 1200`; in particular
every text longer than 1200 characters is rejected. -/
theorem brand_safety_spec :
    (∀ text : String,
      brand_safety text = true ↔
        ((∀ p ∈ BAD_PHRASES, strContainsStr text.toLower p = false) ∧
          text.length ≤ 1200)) ∧
    (∀ text : String, 1200 < text.length → brand_safety text = false) := by
  have key : ∀ text : String,
      brand_safety text = true ↔
        ((∀ p ∈ BAD_PHRASES, strContainsStr text.toLower p = false) ∧
          text.length ≤ 1200) := by
    intro text
    unfold brand_safety
    by_cases hbad : (BAD_PHRASES.any (fun p => strContainsStr text.toLower p)) = true
    · rw [if_pos hbad]
      simp only [List.any_eq_true] at hbad
      obtain ⟨p, hp, hc⟩ := hbad
      constructor
      · intro h; simp at h
      · rintro ⟨hall, -⟩
        rw [hall p hp] at hc
        simp at hc
    · rw [if_neg hbad]
      simp only [List.any_eq_true] at hbad
      push_neg at hbad
      by_cases hlen : 1200 < text.length
      · rw [if_pos hlen]
        constructor
        · intro h; simp at h
        · rintro ⟨-, hle⟩; omega
      · rw [if_neg hlen]
        constructor
        · intro _
          exact ⟨fun p hp => Bool.not_eq_true _ |>.mp (hbad p hp), by omega⟩
        · intro _; rfl
  refine ⟨key, ?_⟩
  intro text hlen
  by_contra h
  have htrue : brand_safety text = true := by
    cases hb : brand_safety text with
    | false => exact absurd hb h
    | true => rfl
  exact absurd ((key text).mp htrue).2 (by omega)

/-- Witness for C9: a concrete 1201-character text is rejected. -/
theorem brand_safety_spec_witness :
    brand_safety (String.mk (List.replicate 1201 'a')) = false := by
  refine brand_safety_spec.2 _ ?_
  show 1200 < (String.mk (List.replicate 1201 'a')).length
  rw [show (String.mk (List.replicate 1201 'a')).length
        = (List.replicate 1201 'a').length from rfl,
    List.length_replicate]
  norm_num

/-! ## `eval_message_with_llm` (run_churn_radar.py, lines 525-558)

The LLM endpoint is an oracle argument: `hasKey` models
`OPENAI_API_KEY` being set, `llm = some d` a successful call returning
scores `d`, and `llm = none` the call (or JSON parse) raising, which the
`except` branch turns into the default scores. -/

structure EvalScores where
  clarity : ℚ
  on_brand : ℚ
  persuasiveness : ℚ
  relevance : ℚ
  safety : ℚ
  overall : ℚ
  rationale : String
deriving DecidableEq, Repr

/-- The deterministic fallback evaluation used when no API key is set
(lines 540-550). -/
def fallback_deterministic_eval (message : String) : EvalScores :=
  let safety_score : ℚ := if brand_safety message then 5 else 0
  { clarity := 3 + (if (pyWords message).length < 30 then 1 else 0)
    on_brand := if brand_safety message then 4 else 2
    persuasiveness := 3
    relevance := 3
    safety := safety_score
    overall := if safety_score > 0 then 16 / 5 else 1
    rationale := "Deterministic fallback evaluation" }

/-- The default scores returned when the LLM call raises
(lines 551-557). -/
def error_fallback_eval (message : String) : EvalScores :=
  { clarity := 3
    on_brand := 3
    persuasiveness := 3
    relevance := 3
    safety := if brand_safety message then 5 else 0
    overall := 3
    rationale := "Fallback eval due to error" }

def eval_message_with_llm (hasKey : Bool) (llm : Option EvalScores)
    (message : String) : EvalScores :=
  match hasKey, llm with
  | true, some d => d
  | true, none => error_fallback_eval message
  | false, _ => fallback_deterministic_eval message

/-- C6: message-quality evaluation falls back to a default score instead
of failing: for every message and oracle outcome the function returns a
score record (totality is by construction); with no API key it returns
the deterministic fallback, whose `overall` is 3.2 iff the message
passes `brand_safety` and 1.0 otherwise; when the LLM call raises it
returns the default scores with `overall` 3.0 and `safety` 5 iff
`brand_safety` holds. -/
theorem eval_message_with_llm_spec :
    ∀ (hasKey : Bool) (llm : Option EvalScores) (message : String),
      (hasKey = false →
        eval_message_with_llm hasKey llm message = fallback_deterministic_eval message ∧
        (eval_message_with_llm hasKey llm message).overall =
          (if brand_safety message then (16 : ℚ) / 5 else 1)) ∧
      (hasKey = true → llm = none →
        (eval_message_with_llm hasKey llm message).overall = 3 ∧
        ((eval_message_with_llm hasKey llm message).safety = 5 ↔
          brand_safety message = true)) := by
  intro hasKey llm message
  constructor
  · rintro rfl
    refine ⟨rfl, ?_⟩
    show (fallback_deterministic_eval message).overall = _
    by_cases hb : brand_safety message
    · simp [fallback_deterministic_eval, hb]
    · simp [fallback_deterministic_eval, hb]
  · rintro rfl rfl
    refine ⟨rfl, ?_⟩
    show (error_fallback_eval message).safety = 5 ↔ _
    by_cases hb : brand_safety message
    · simp [error_fallback_eval, hb]
    · simp [error_fallback_eval, hb]

/-- Witness for C6 at the concrete no-key call on `"Hello"`. -/
theorem eval_message_with_llm_spec_witness :
    eval_message_with_llm false none "Hello" = fallback_deterministic_eval "Hello" ∧
    (eval_message_with_llm false none "Hello").overall =
      (if brand_safety "Hello" then (16 : ℚ) / 5 else 1) :=
  (eval_message_with_llm_spec false none "Hello").1 rfl

/-! ## `classify_archetype` (run_churn_radar.py, lines 642-681) and
`_infer_archetype_from_name` (app/churn_core/logic.py, lines 134-145)

The LLM is again an oracle: `llm = some a` models a successful call
whose parsed JSON has archetype label `a` (a missing `"archetype"` key
behaves like a label outside the set), `llm = none` models the call or
parse raising (the `except` branch). -/

def ARCHETYPES : List String :=
  ["ValueSensitive", "Loyalist", "Premium", "AtRisk", "ServiceSensitive"]

/-- A cohort summary dictionary as produced by `cohort_summary` /
`summarize_micro_cohort` (run_churn_radar.py, lines 353-362, 406-409). -/
structure CohortSummary where
  size : ℚ
  avg_score : ℚ
  avg_tenure : ℚ
  avg_recency : ℚ
  avg_engagement : ℚ
  avg_value : ℚ
deriving DecidableEq, Repr

/-- The deterministic threshold rules used when no API key is present
(lines 663-676). -/
def classify_archetype_rules (s : CohortSummary) : String :=
  if s.avg_value > 7 / 10 ∧ s.avg_tenure > 24 then "Premium"
  else if s.avg_tenure > 18 then "Loyalist"
  else if s.avg_recency > 20 then "AtRisk"
  else "ValueSensitive"

def classify_archetype (hasKey : Bool) (llm : Option String)
    (s : CohortSummary) : String :=
  match hasKey, llm with
  | true, some a => if a ∈ ARCHETYPES then a else "ValueSensitive"
  | true, none => "ValueSensitive"
  | false, _ => classify_archetype_rules s

/-- `_infer_archetype_from_name`: the dashboard's name-based fallback. -/
def infer_archetype_from_name (cohort_name : String) : String :=
  if strContainsStr cohort_name "Payment-sensitive" then "ValueSensitive"
  else if strContainsStr cohort_name "High-tenure" then "Loyalist"
  else if strContainsStr cohort_name "Premium" then "Premium"
  else if strContainsStr cohort_name "AtRisk" then "AtRisk"
  else "Premium"

/-- C5: archetype assignment always yields a label in
`{ValueSensitive, Loyalist, Premium, AtRisk, ServiceSensitive}` and
never raises: with an API key a label outside the set is coerced to
`"ValueSensitive"`; an exception yields `"ValueSensitive"`; without a
key the deterministic threshold rules run; and the dashboard's
name-based fallback also always lands in the set. -/
theorem classify_archetype_total :
    (∀ (hasKey : Bool) (llm : Option String) (s : CohortSummary),
      classify_archetype hasKey llm s ∈ ARCHETYPES) ∧
    (∀ (a : String) (s : CohortSummary), a ∉ ARCHETYPES →
      classify_archetype true (some a) s = "ValueSensitive") ∧
    (∀ s : CohortSummary, classify_archetype true none s = "ValueSensitive") ∧
    (∀ (llm : Option String) (s : CohortSummary),
      classify_archetype false llm s = classify_archetype_rules s) ∧
    (∀ cohort_name : String, infer_archetype_from_name cohort_name ∈ ARCHETYPES) := by
  have hrules : ∀ s : CohortSummary, classify_archetype_rules s ∈ ARCHETYPES := by
    intro s
    unfold classify_archetype_rules
    split_ifs <;> simp [ARCHETYPES]
  refine ⟨?_, ?_, ?_, ?_, ?_⟩
  · intro hasKey llm s
    match hasKey, llm with
    | true, some a =>
      show (if a ∈ ARCHETYPES then a else "ValueSensitive") ∈ ARCHETYPES
      split_ifs with h
      · exact h
      · simp [ARCHETYPES]
    | true, none => simp [classify_archetype, ARCHETYPES]
    | false, _ => exact hrules s
  · intro a s ha
    show (if a ∈ ARCHETYPES then a else "ValueSensitive") = "ValueSensitive"
    exact if_neg ha
  · intro s; rfl
  · intro llm s; rfl
  · intro cohort_name
    unfold infer_archetype_from_name
    split_ifs <;> simp [ARCHETYPES]

/-- Witness for C5: the unknown LLM label `"Bogus"` is coerced to
`"ValueSensitive"`. -/
theorem classify_archetype_total_witness :
    classify_archetype true (some "Bogus") ⟨0, 0, 0, 0, 0, 0⟩ = "ValueSensitive" :=
  classify_archetype_total.2.1 "Bogus" ⟨0, 0, 0, 0, 0, 0⟩ (by simp [ARCHETYPES])

/-! ## `calculate_roi` (app/churn_core/logic.py, lines 292-349)

The function looks the group up in the loaded exports and reads `size`
from its summary; the arithmetic core is embedded as a function of that
size and of the merged parameter configuration.  Python's `int()`
truncates toward zero, which `pyInt` models. -/

/-- Python `int()` applied to a real number: truncation toward zero. -/
def pyInt (q : ℚ) : ℤ := if 0 ≤ q then ⌊q⌋ else ⌈q⌉

structure RoiParams where
  reactivation_rate : ℚ
  aov : ℚ
  margin : ℚ
  send_cost : ℚ
  incentive_rate : ℚ
  incentive_takeup : ℚ
deriving DecidableEq, Repr

structure RoiOutputs where
  reactivated : ℤ
  revenue : ℚ
  gross_profit : ℚ
  send_costs : ℚ
  incentive_costs : ℚ
  total_costs : ℚ
  net_profit : ℚ
  romi : ℚ
deriving DecidableEq, Repr

def calculate_roi (size : ℕ) (p : RoiParams) : RoiOutputs :=
  let reactivated : ℤ := pyInt ((size : ℚ) * p.reactivation_rate)
  let revenue : ℚ := (reactivated : ℚ) * p.aov
  let gross_profit := revenue * p.margin
  let send_costs := (size : ℚ) * p.send_cost
  let incentive_costs := (reactivated : ℚ) * p.aov * p.incentive_rate * p.incentive_takeup
  let total_costs := send_costs + incentive_costs
  let net_profit := gross_profit - total_costs
  let romi := if 0 < total_costs then net_profit / total_costs else 0
  ⟨reactivated, revenue, gross_profit, send_costs, incentive_costs,
   total_costs, net_profit, romi⟩

/-- C4 counterexample: the claim says `reactivated = floor(size *
reactivation_rate)` for every parameter assignment, but Python's `int()`
truncates toward zero, so at `size = 10`, `reactivation_rate = -0.15`
the code yields `int(-1.5) = -1` while `floor(-1.5) = -2`. -/
theorem calculate_roi_floor_counterexample :
    (calculate_roi 10 ⟨-3 / 20, 1500, 3 / 5, 1 / 4, 1 / 20, 2 / 5⟩).reactivated ≠
      ⌊(10 : ℚ) * (-3 / 20)⌋ := by
  have hval : (10 : ℚ) * (-3 / 20) = -3 / 2 := by norm_num
  have h1 : (calculate_roi 10 ⟨-3 / 20, 1500, 3 / 5, 1 / 4, 1 / 20, 2 / 5⟩).reactivated
      = ⌈(-3 : ℚ) / 2⌉ := by
    show pyInt ((10 : ℚ) * (-3 / 20)) = _
    rw [hval, pyInt, if_neg (by norm_num)]
  have h2 : ⌈(-3 : ℚ) / 2⌉ = -1 :=
    Int.ceil_eq_iff.mpr ⟨by norm_num, by norm_num⟩
  have h3 : ⌊(10 : ℚ) * (-3 / 20)⌋ = -2 := by
    rw [hval]
    exact Int.floor_eq_iff.mpr ⟨by norm_num, by norm_num⟩
  rw [h1, h2, h3]
  decide

/-- C4 (amended): `calculate_roi`'s outputs satisfy
`reactivated = int(size * reactivation_rate)` with `int()` truncating
toward zero - which agrees with `floor` whenever
`size * reactivation_rate ≥ 0` - and the remaining identities exactly
as claimed: `revenue = reactivated * aov`,
`gross_profit = revenue * margin`, `send_costs = size * send_cost`,
`incentive_costs = reactivated * aov * incentive_rate * incentive_takeup`,
`total_costs = send_costs + incentive_costs`,
`net_profit = gross_profit - total_costs`, and
`romi = net_profit / total_costs` when `total_costs > 0`, else 0. -/
theorem calculate_roi_spec (size : ℕ) (p : RoiParams) :
    (calculate_roi size p).reactivated = pyInt ((size : ℚ) * p.reactivation_rate) ∧
    (0 ≤ (size : ℚ) * p.reactivation_rate →
      (calculate_roi size p).reactivated = ⌊(size : ℚ) * p.reactivation_rate⌋) ∧
    (calculate_roi size p).revenue = ((calculate_roi size p).reactivated : ℚ) * p.aov ∧
    (calculate_roi size p).gross_profit = (calculate_roi size p).revenue * p.margin ∧
    (calculate_roi size p).send_costs = (size : ℚ) * p.send_cost ∧
    (calculate_roi size p).incentive_costs =
      ((calculate_roi size p).reactivated : ℚ) * p.aov * p.incentive_rate * p.incentive_takeup ∧
    (calculate_roi size p).total_costs =
      (calculate_roi size p).send_costs + (calculate_roi size p).incentive_costs ∧
    (calculate_roi size p).net_profit =
      (calculate_roi size p).gross_profit - (calculate_roi size p).total_costs ∧
    (0 < (calculate_roi size p).total_costs →
      (calculate_roi size p).romi =
        (calculate_roi size p).net_profit / (calculate_roi size p).total_costs) ∧
    (¬ 0 < (calculate_roi size p).total_costs → (calculate_roi size p).romi = 0) := by
  refine ⟨rfl, ?_, rfl, rfl, rfl, rfl, rfl, rfl, ?_, ?_⟩
  · intro h
    show pyInt ((size : ℚ) * p.reactivation_rate) = _
    rw [pyInt, if_pos h]
  · intro h
    show (if 0 < (calculate_roi size p).total_costs
      then (calculate_roi size p).net_profit / (calculate_roi size p).total_costs
      else (0 : ℚ)) = _
    rw [if_pos h]
  · intro h
    show (if 0 < (calculate_roi size p).total_costs
      then (calculate_roi size p).net_profit / (calculate_roi size p).total_costs
      else (0 : ℚ)) = 0
    rw [if_neg h]

/-- Witness for C4 at the 'Payment-sensitive churners' defaults
(`size = 100`, rate 0.08, aov 1500, margin 0.60, send 0.25,
incentive 0.05, takeup 0.4). -/
theorem calculate_roi_spec_witness :
    (calculate_roi 100 ⟨2 / 25, 1500, 3 / 5, 1 / 4, 1 / 20, 2 / 5⟩).reactivated =
      ⌊(100 : ℚ) * (2 / 25)⌋ :=
  (calculate_roi_spec 100 ⟨2 / 25, 1500, 3 / 5, 1 / 4, 1 / 20, 2 / 5⟩).2.1 (by norm_num)

/-! ## `deterministic_embed` (run_churn_radar.py, lines 426-438)

```python
def deterministic_embed(texts):
    out=[]
    for t in texts:
        h = hashlib.sha256((t or '').encode('utf-8')).digest()
        v = int.from_bytes(h,'big')
        vals=[]
        for i in range(EMBED_DIM):
            v = (v * 6364136223846793005 + 1442695040888963407) & ((1<<64)-1)
            vals.append(((v >> (i % 64)) & 0xFFFF)/65535.0)
        out.append(vals)
    return np.array(out)
```

`hashlib.sha256` is a library call; it enters the embedding as an
oracle argument `sha256 : String → ℕ` (the digest read as a big-endian
integer), which suffices because every downstream value is a function of
that integer alone. -/

def EMBED_DIM : ℕ := 256

/-- One iteration of the 64-bit linear congruential update
`v = (v * 6364136223846793005 + 1442695040888963407) & ((1<<64)-1)`. -/
def lcgStep (v : ℕ) : ℕ :=
  (v * 6364136223846793005 + 1442695040888963407) % (2 ^ 64)

/-- The inner loop: `n` remaining iterations, position `i`, state `v`. -/
def embedGo : ℕ → ℕ → ℕ → List ℚ
  | _, _, 0 => []
  | v, i, n + 1 =>
    let v' := lcgStep v
    ((((v' >>> (i % 64)) &&& 0xFFFF : ℕ) : ℚ) / 65535) :: embedGo v' (i + 1) n

/-- The embedding row for one text, as a function of its digest. -/
def embedOne (h : ℕ) : List ℚ := embedGo h 0 EMBED_DIM

def deterministic_embed (sha256 : String → ℕ) (texts : List String) : List (List ℚ) :=
  texts.map (fun t => embedOne (sha256 t))

theorem embedGo_length (n : ℕ) : ∀ v i, (embedGo v i n).length = n := by
  induction n with
  | zero => intro v i; rfl
  | succ k ih => intro v i; simp [embedGo, ih]

theorem embedGo_mem_bounds (n : ℕ) :
    ∀ v i, ∀ x ∈ embedGo v i n, 0 ≤ x ∧ x ≤ 1 := by
  induction n with
  | zero => intro v i x hx; cases hx
  | succ k ih =>
    intro v i x hx
    rcases List.mem_cons.mp hx with rfl | hx'
    · constructor
      · positivity
      · rw [div_le_one (by norm_num)]
        have hle : ((lcgStep v >>> (i % 64)) &&& 0xFFFF) ≤ 0xFFFF :=
          Nat.and_le_right
        exact_mod_cast Nat.cast_le.mpr hle
    · exact ih _ _ x hx'

/-- C10: `deterministic_embed` is a pure deterministic function: one row
per text, each row `EMBED_DIM = 256` entries long with every entry in
`[0,1]`, and each row is derived only from the SHA-256 digest of its
text - equal digests give equal rows, and the whole output is the map
of that per-digest row over the text list (no randomness or external
state). -/
theorem deterministic_embed_spec (sha256 : String → ℕ) (texts : List String) :
    (deterministic_embed sha256 texts).length = texts.length ∧
    (∀ row ∈ deterministic_embed sha256 texts, row.length = EMBED_DIM) ∧
    (∀ row ∈ deterministic_embed sha256 texts, ∀ x ∈ row, 0 ≤ x ∧ x ≤ 1) ∧
    (∀ t₁ t₂ : String, sha256 t₁ = sha256 t₂ →
      embedOne (sha256 t₁) = embedOne (sha256 t₂)) ∧
    deterministic_embed sha256 texts = texts.map (fun t => embedOne (sha256 t)) := by
  refine ⟨List.length_map _ _, ?_, ?_, ?_, rfl⟩
  · intro row hrow
    rcases List.mem_map.mp hrow with ⟨t, _, rfl⟩
    exact embedGo_length _ _ _
  · intro row hrow x hx
    rcases List.mem_map.mp hrow with ⟨t, _, rfl⟩
    exact embedGo_mem_bounds _ _ _ x hx
  · intro t₁ t₂ h
    rw [h]

/-- Witness for C10: the row of the zero digest has exactly 256 entries. -/
theorem deterministic_embed_spec_witness :
    (embedOne 0).length = EMBED_DIM := by
  have h := (deterministic_embed_spec (fun _ => 0) ["x"]).2.1
  exact h (embedOne 0) (by simp [deterministic_embed])

/-! ## The batch run `run()` (run_churn_radar.py, lines 808-1003)

The control flow of `run()` is abstracted to the sequence of
pipeline-stage events it performs, with the data itself irrelevant:

* `initialize_system()` (line 810) requires `OPENAI_API_KEY` and makes a
  connection-test chat call (`test_openai_connection`, line 795), so a
  completed run always begins with an LLM call;
* `load_data()`/`canonicalize_columns` (812-813): `load`;
* `compute_features`/`mark_status` (814-819): `featureEng`;
* `create_micro_cohorts` (823): `cluster` when scikit-learn is available
  (`sk`), followed by one `classify_archetype` LLM call per micro-cohort
  (lines 828-838; `m` micro-cohorts);
* the four rule-based cohorts (842-858): per cohort a `cohortFilter`
  event, then `classify_archetype` and `generate_cohort_insights` LLM
  calls;
* the per-cohort CSV exports (863-869): four `exportFile` events;
* the per-cohort message generation via `call_chat` (875-971): four
  `llmCall` events;
* the manifest, messages, ROI-json and ROI-csv writes (973-999): four
  `exportFile` events. -/

inductive Event where
  | load
  | featureEng
  | cluster
  | cohortFilter
  | llmCall
  | exportFile
deriving DecidableEq, Repr

/-- The events of `run()` after `initialize_system`'s LLM test call,
`load` and `featureEng`: optional clustering block, then the four
rule-based cohorts, CSV exports, message LLM calls and final exports. -/
def runTail : List Event :=
  [Event.cohortFilter, Event.llmCall, Event.llmCall,
   Event.cohortFilter, Event.llmCall, Event.llmCall,
   Event.cohortFilter, Event.llmCall, Event.llmCall,
   Event.cohortFilter, Event.llmCall, Event.llmCall,
   Event.exportFile, Event.exportFile, Event.exportFile, Event.exportFile,
   Event.llmCall, Event.llmCall, Event.llmCall, Event.llmCall,
   Event.exportFile, Event.exportFile, Event.exportFile, Event.exportFile]

/-- The stage-event trace of one completed `run()`: `sk` is scikit-learn
availability, `m` the number of micro-cohorts produced by clustering. -/
def runTrace (sk : Bool) (m : ℕ) : List Event :=
  Event.llmCall :: Event.load :: Event.featureEng ::
    ((if sk then Event.cluster :: List.replicate m Event.llmCall else []) ++ runTail)

/-- Merge consecutive duplicate events: the trace viewed at stage
granularity, where a loop over cohorts making the same kind of step is
one stage. -/
def collapse : List Event → List Event
  | [] => []
  | [a] => [a]
  | a :: b :: rest => if a = b then collapse (b :: rest) else a :: collapse (b :: rest)

/-- The stage order asserted by the claim: load, then feature
engineering, then cohort filter, then optional clustering, then LLM
call, then export, each stage once. -/
def spec_stage_order : List Event :=
  [Event.load, Event.featureEng, Event.cohortFilter, Event.cluster,
   Event.llmCall, Event.exportFile]

/-- C7 counterexample: with clustering available and 2 micro-cohorts,
the run's trace is not the claimed stage sequence - neither literally
nor after merging consecutive duplicate events.  Clustering runs before
the cohort filter, LLM calls happen at several stages (including before
`load`, in the API connection test), and exports happen both before and
after the message LLM calls. -/
theorem run_stage_order_counterexample :
    runTrace true 2 ≠ spec_stage_order ∧
    collapse (runTrace true 2) ≠ spec_stage_order := by
  decide

theorem collapse_cons_ne {a b : Event} (h : ¬ a = b) (t : List Event) :
    collapse (a :: b :: t) = a :: collapse (b :: t) := by
  simp [collapse, h]

theorem collapse_cons_replicate (a : Event) (m : ℕ) (rest : List Event) :
    collapse (a :: (List.replicate m a ++ rest)) = collapse (a :: rest) := by
  induction m with
  | zero => rfl
  | succ k ih =>
    rw [List.replicate_succ, List.cons_append]
    have h : collapse (a :: a :: (List.replicate k a ++ rest)) =
        collapse (a :: (List.replicate k a ++ rest)) := by
      simp [collapse]
    rw [h, ih]

/-- C7 (amended): one completed `run()` is a single pass - it loads the
dataset once and computes features once, in that order, right after the
API connection-test LLM call - but the remaining stages are ordered
load → feature engineering → optional clustering (with micro-cohort
archetype LLM calls) → cohort filtering interleaved with archetype and
insight LLM calls → CSV exports → message-generation LLM calls → final
exports; clustering precedes the cohort filter, and LLM calls and
exports each occur at several points rather than once. -/
theorem run_stage_order_amended :
    (∀ m : ℕ,
      collapse (runTrace true (m + 1)) =
        [Event.llmCall, Event.load, Event.featureEng, Event.cluster, Event.llmCall,
         Event.cohortFilter, Event.llmCall, Event.cohortFilter, Event.llmCall,
         Event.cohortFilter, Event.llmCall, Event.cohortFilter, Event.llmCall,
         Event.exportFile, Event.llmCall, Event.exportFile]) ∧
    (∀ m : ℕ,
      collapse (runTrace false m) =
        [Event.llmCall, Event.load, Event.featureEng,
         Event.cohortFilter, Event.llmCall, Event.cohortFilter, Event.llmCall,
         Event.cohortFilter, Event.llmCall, Event.cohortFilter, Event.llmCall,
         Event.exportFile, Event.llmCall, Event.exportFile]) ∧
    (∀ (sk : Bool) (m : ℕ), ∃ t : List Event,
      runTrace sk m = Event.llmCall :: Event.load :: Event.featureEng :: t ∧
      Event.load ∉ t ∧ Event.featureEng ∉ t) := by
  refine ⟨?_, ?_, ?_⟩
  · intro m
    show collapse (Event.llmCall :: Event.load :: Event.featureEng ::
      (Event.cluster :: List.replicate (m + 1) Event.llmCall ++ runTail)) = _
    rw [List.replicate_succ, List.cons_append, List.cons_append,
      collapse_cons_ne (by decide : ¬ Event.llmCall = Event.load),
      collapse_cons_ne (by decide : ¬ Event.load = Event.featureEng),
      collapse_cons_ne (by decide : ¬ Event.featureEng = Event.cluster),
      collapse_cons_ne (by decide : ¬ Event.cluster = Event.llmCall),
      collapse_cons_replicate]
    decide
  · intro m
    show collapse (Event.llmCall :: Event.load :: Event.featureEng ::
      (([] : List Event) ++ runTail)) = _
    decide
  · intro sk m
    refine ⟨(if sk then Event.cluster :: List.replicate m Event.llmCall else []) ++ runTail,
      rfl, ?_, ?_⟩ <;>
      cases sk <;>
      simp [runTail, List.mem_replicate]

/-- Witness for C7's amended theorem at the concrete run with
clustering and one micro-cohort. -/
theorem run_stage_order_amended_witness :
    collapse (runTrace true 1) =
      [Event.llmCall, Event.load, Event.featureEng, Event.cluster, Event.llmCall,
       Event.cohortFilter, Event.llmCall, Event.cohortFilter, Event.llmCall,
       Event.cohortFilter, Event.llmCall, Event.cohortFilter, Event.llmCall,
       Event.exportFile, Event.llmCall, Event.exportFile] :=
  run_stage_order_amended.1 0

end ChurnRadar
